import Mathlib

/-!
Shallow embedding of the two components of the
LineageOS `android_device_xiaomi_sm6250-common` repository:

* `src/amplifier/tas2562.c` — the TAS2562 smart-PA amplifier HAL
  (profile selection, feedback-capture session management);
* `src/libinit/libinit_variant.cpp` — the boot-time variant property
  resolver.

The C code is stateful and calls into external subsystems (mixer store,
audio routing, PCM streams, property store).  The embedding makes the
state explicit (`Amp`, `Adev`) and models the external world by an
environment record (`Env`) that fixes the outcome of every external
call; every externally visible call performed by a function is recorded
in an ordered trace of `Event`s.  An `Event.mixerSetValue` /
`Event.mixerSetEnum` entry records an invocation of the corresponding
mixer wrapper (which always performs at least the mixer-control lookup,
and the set when the control exists).
-/

namespace SM6250

/-- The `snd_device` routing identifiers the amplifier code mentions by
name (from the `switch` in `tas2562_is_speaker` plus the two devices
used by the feedback path); `other` stands for every further value of
the platform enumeration. -/
inductive SndDevice
  | OUT_SPEAKER
  | OUT_SPEAKER_AND_ANC_HEADSET
  | OUT_SPEAKER_AND_BT_A2DP
  | OUT_SPEAKER_AND_BT_SCO
  | OUT_SPEAKER_AND_BT_SCO_WB
  | OUT_SPEAKER_AND_DISPLAY_PORT
  | OUT_SPEAKER_AND_HDMI
  | OUT_SPEAKER_AND_HEADPHONES
  | OUT_SPEAKER_AND_LINE
  | OUT_SPEAKER_REVERSE
  | OUT_VOICE_SPEAKER
  | OUT_VOICE_SPEAKER_AND_VOICE_ANC_HEADSET
  | OUT_VOICE_SPEAKER_AND_VOICE_HEADPHONES
  | OUT_VOICE_SPEAKER_2
  | IN_CAPTURE_VI_FEEDBACK
  | NONE
  | other (code : Nat)
deriving DecidableEq, Repr

/-- Usecase identifiers: the one the amplifier uses, plus the rest of
the platform enumeration. -/
inductive UsecaseId
  | AUDIO_SPKR_CALIB_TX
  | other (code : Nat)
deriving DecidableEq, Repr

/-- Usecase stream type (`usecase->type`). -/
inductive UsecaseType
  | PCM_CAPTURE
  | PCM_PLAYBACK
  | other (code : Nat)
deriving DecidableEq, Repr

/-- `struct audio_usecase` restricted to the fields `tas2562.c`
writes or reads. -/
structure Usecase where
  id : UsecaseId
  ucType : UsecaseType
  in_snd_device : SndDevice
  out_snd_device : SndDevice
deriving DecidableEq, Repr

/-- `tas2562_profile_t` from `tas2562.c` (PROFILE_NONE = -1,
PROFILE_MUSIC = 0, PROFILE_RING, PROFILE_VOICE). -/
inductive Profile
  | NONE
  | MUSIC
  | RING
  | VOICE
deriving DecidableEq, Repr

/-- `tas2562_profile_names[]`: the name table indexed by profile.  In
the C source the array has entries only for MUSIC, RING and VOICE;
indexing it with PROFILE_NONE (= -1) would be out of bounds and never
happens on reachable states (see the Profile invariant), so NONE is
mapped to the empty string here. -/
def tas2562_profile_names : Profile → String
  | Profile.NONE => ""
  | Profile.MUSIC => "MUSIC"
  | Profile.RING => "RING"
  | Profile.VOICE => "VOICE"

/-- PCM sample formats (`enum pcm_format`); only S24_LE is used. -/
inductive PcmFormat
  | S24_LE
  | other (code : Nat)
deriving DecidableEq, Repr

/-- `struct pcm_config` fields set by `tas2562_pcm_config`. -/
structure PcmConfig where
  channels : Nat
  rate : Nat
  period_size : Nat
  period_count : Nat
  format : PcmFormat
  start_threshold : Nat
  stop_threshold : Nat
  avail_min : Nat
deriving DecidableEq, Repr

/-- `tas2562_pcm_config` from `tas2562.c` (INT_MAX = 2^31 - 1). -/
def tas2562_pcm_config : PcmConfig :=
  { channels := 2
    rate := 48000
    period_size := 256
    period_count := 4
    format := PcmFormat.S24_LE
    start_threshold := 0
    stop_threshold := 2147483647
    avail_min := 40 }

/-- Mixer control name `TAS2562_ALGO_PROFILE`. -/
def TAS2562_ALGO_PROFILE : String := "TAS2562_ALGO_PROFILE"

/-- Mixer control name `TAS2562_SMARTPA_ENABLE`. -/
def TAS2562_SMARTPA_ENABLE : String := "TAS2562_SMARTPA_ENABLE"

/-- Mixer control name `TAS2562_SET_SPKID_LEFT`. -/
def TAS2562_SET_SPKID_LEFT : String := "TAS2562_SET_SPKID_LEFT"

/-- errno values used by the amplifier (returned negated). -/
def EINVAL : Int := 22

/-- errno ENOMEM. -/
def ENOMEM : Int := 12

/-- errno ENODEV. -/
def ENODEV : Int := 19

/-- errno 5, used as the stream open/ready failure code. -/
def EIOVal : Int := 5

/-- Externally visible calls the amplifier makes, in order.  Mixer
events record an invocation of the corresponding wrapper
(`tas2562_mixer_set_value` / `tas2562_mixer_set_enum_by_string`); an
empty trace means no mixer or routing call was made at all. -/
inductive Event
  | enableSndDevice (d : SndDevice)
  | enableAudioRoute (id : UsecaseId)
  | disableSndDevice (d : SndDevice)
  | disableAudioRoute (id : UsecaseId)
  | mixerSetValue (name : String) (value : Int)
  | mixerSetEnum (name : String) (value : String)
  | pcmOpen (card : Nat) (deviceId : Int) (config : PcmConfig)
  | pcmStart
  | pcmClose
deriving DecidableEq, Repr

/-- The audio-device context (`struct audio_device`) restricted to the
state the amplifier reads or writes: the active-usecase list.  (The
mixer handle and sound-card id live in `Env`.) -/
structure Adev where
  usecase_list : List Usecase
deriving DecidableEq, Repr

/-- `tas2562_amp_t`: current profile, stored adev context, and the
active feedback capture stream (`pcm`, `none` = NULL).  Stream handles
are modelled as naturals. -/
structure Amp where
  profile : Profile
  adev : Adev
  pcm : Option Nat
deriving DecidableEq, Repr

/-- The behaviour of the external collaborators during one call:
which mixer controls exist and what their setters return, the result of
`platform_get_pcm_device_id`, of `pcm_open` / `pcm_is_ready` /
`pcm_start`, whether `calloc` succeeds, and the sound-card id. -/
structure Env where
  mixerCtlExists : String → Bool
  mixerSetEnumRet : String → String → Int
  mixerSetValueRet : String → Int → Int
  pcmDeviceId : Int
  pcmOpenResult : Option Nat
  pcmReady : Nat → Bool
  pcmStartRet : Int
  allocOk : Bool
  sndCard : Nat

/-- `tas2562_mixer_set_enum_by_string`: look the control up by name
(-EINVAL when absent), otherwise set it and return the setter's code.
The trace records the invocation. -/
def tas2562_mixer_set_enum_by_string (env : Env) (name value : String) :
    Int × List Event :=
  if env.mixerCtlExists name then
    (env.mixerSetEnumRet name value, [Event.mixerSetEnum name value])
  else
    (-EINVAL, [Event.mixerSetEnum name value])

/-- `tas2562_mixer_set_value`: look the control up by name (-EINVAL
when absent), otherwise set index 0 and return the setter's code. -/
def tas2562_mixer_set_value (env : Env) (name : String) (value : Int) :
    Int × List Event :=
  if env.mixerCtlExists name then
    (env.mixerSetValueRet name value, [Event.mixerSetValue name value])
  else
    (-EINVAL, [Event.mixerSetValue name value])

/-- `tas2562_is_speaker`: the fixed enumerated set of speaker-class
routing values. -/
def tas2562_is_speaker : SndDevice → Bool
  | SndDevice.OUT_SPEAKER => true
  | SndDevice.OUT_SPEAKER_AND_ANC_HEADSET => true
  | SndDevice.OUT_SPEAKER_AND_BT_A2DP => true
  | SndDevice.OUT_SPEAKER_AND_BT_SCO => true
  | SndDevice.OUT_SPEAKER_AND_BT_SCO_WB => true
  | SndDevice.OUT_SPEAKER_AND_DISPLAY_PORT => true
  | SndDevice.OUT_SPEAKER_AND_HDMI => true
  | SndDevice.OUT_SPEAKER_AND_HEADPHONES => true
  | SndDevice.OUT_SPEAKER_AND_LINE => true
  | SndDevice.OUT_SPEAKER_REVERSE => true
  | SndDevice.OUT_VOICE_SPEAKER => true
  | SndDevice.OUT_VOICE_SPEAKER_AND_VOICE_ANC_HEADSET => true
  | SndDevice.OUT_VOICE_SPEAKER_AND_VOICE_HEADPHONES => true
  | SndDevice.OUT_VOICE_SPEAKER_2 => true
  | _ => false

/-- `audio_mode_t` values the amplifier distinguishes; `other` covers
the remaining framework modes. -/
inductive AudioMode
  | NORMAL
  | RINGTONE
  | IN_CALL
  | IN_COMMUNICATION
  | other (code : Nat)
deriving DecidableEq, Repr

/-- `tas2562_set_mode` on a non-null device: update the stored profile
per the fixed mapping, leaving it unchanged for any other mode; always
return 0. -/
def tas2562_set_mode (amp : Amp) (mode : AudioMode) : Int × Amp :=
  match mode with
  | AudioMode.NORMAL => (0, { amp with profile := Profile.MUSIC })
  | AudioMode.RINGTONE => (0, { amp with profile := Profile.RING })
  | AudioMode.IN_CALL => (0, { amp with profile := Profile.VOICE })
  | AudioMode.IN_COMMUNICATION => (0, { amp with profile := Profile.VOICE })
  | AudioMode.other _ => (0, amp)

/-- The usecase record `tas2562_start_feedback` allocates and fills
(id USECASE_AUDIO_SPKR_CALIB_TX, type PCM_CAPTURE, input device
SND_DEVICE_IN_CAPTURE_VI_FEEDBACK, output device SND_DEVICE_NONE). -/
def tas2562_feedback_usecase : Usecase :=
  { id := UsecaseId.AUDIO_SPKR_CALIB_TX
    ucType := UsecaseType.PCM_CAPTURE
    in_snd_device := SndDevice.IN_CAPTURE_VI_FEEDBACK
    out_snd_device := SndDevice.NONE }

/-- `tas2562_start_feedback`: the enable path.  Non-speaker masks are a
no-op success; an already-open stream is -EINVAL; allocation failure is
-ENOMEM.  Otherwise the usecase record is inserted at the head of the
active-usecase list, the routing device is enabled and its route
applied, the three mixer wrappers are invoked (return values
discarded, as in the source), the PCM device id is resolved (-ENODEV
when negative), and the capture stream is opened/readied/started.  On
the error paths the source jumps to the rollback labels: `pcm_close`
only after a failed `pcm_start` (the not-ready path jumps to
`err_no_pcm`, skipping the close), then smart-PA DISABLE, route
reverted, routing device disabled, the head usecase node removed and
freed. -/
def tas2562_start_feedback (env : Env) (amp : Amp) (device : SndDevice) :
    Int × Amp × List Event :=
  if ¬ tas2562_is_speaker device then (0, amp, [])
  else if amp.pcm.isSome then (-EINVAL, amp, [])
  else if ¬ env.allocOk then (-ENOMEM, amp, [])
  else
    let usecase := tas2562_feedback_usecase
    let amp1 : Amp :=
      { amp with adev := { amp.adev with
          usecase_list := usecase :: amp.adev.usecase_list } }
    let r1 := tas2562_mixer_set_value env TAS2562_SET_SPKID_LEFT 0
    let r2 := tas2562_mixer_set_enum_by_string env TAS2562_ALGO_PROFILE
        (tas2562_profile_names amp.profile)
    let r3 := tas2562_mixer_set_enum_by_string env TAS2562_SMARTPA_ENABLE
        "ENABLE"
    let setupEvents :=
      Event.enableSndDevice SndDevice.IN_CAPTURE_VI_FEEDBACK ::
        Event.enableAudioRoute usecase.id :: (r1.2 ++ r2.2 ++ r3.2)
    let rDis := tas2562_mixer_set_enum_by_string env TAS2562_SMARTPA_ENABLE
        "DISABLE"
    let rollbackEvents :=
      rDis.2 ++ [Event.disableAudioRoute usecase.id,
                 Event.disableSndDevice SndDevice.IN_CAPTURE_VI_FEEDBACK]
    let ampRB : Amp :=
      { amp1 with adev := { amp1.adev with
          usecase_list := amp1.adev.usecase_list.tail } }
    if env.pcmDeviceId < 0 then
      (-ENODEV, ampRB, setupEvents ++ rollbackEvents)
    else
      let openEv := Event.pcmOpen env.sndCard env.pcmDeviceId tas2562_pcm_config
      match env.pcmOpenResult with
      | none =>
        (-EIOVal, ampRB, setupEvents ++ [openEv] ++ rollbackEvents)
      | some h =>
        if ¬ env.pcmReady h then
          (-EIOVal, ampRB, setupEvents ++ [openEv] ++ rollbackEvents)
        else if env.pcmStartRet < 0 then
          (env.pcmStartRet, ampRB,
            setupEvents ++ [openEv, Event.pcmStart, Event.pcmClose] ++
              rollbackEvents)
        else
          (0, { amp1 with pcm := some h },
            setupEvents ++ [openEv, Event.pcmStart])

/-- `get_usecase_from_list`: first usecase with the given id, if any. -/
def get_usecase_from_list (l : List Usecase) (id : UsecaseId) :
    Option Usecase :=
  l.find? (fun u => u.id = id)

/-- `list_remove` of the node `get_usecase_from_list` found: drop the
first usecase with the given id. -/
def remove_usecase (l : List Usecase) (id : UsecaseId) : List Usecase :=
  match l with
  | [] => []
  | u :: rest => if u.id = id then rest else u :: remove_usecase rest id

/-- `tas2562_stop_feedback`: the disable path.  Non-speaker masks are a
no-op success; no open stream is -EINVAL.  Otherwise: close the stream
and clear the handle, invoke the smart-PA DISABLE wrapper (return value
discarded), disable the routing device, and if a matching usecase
record is in the list, revert its route, remove and free it; its
absence is tolerated. -/
def tas2562_stop_feedback (env : Env) (amp : Amp) (device : SndDevice) :
    Int × Amp × List Event :=
  if ¬ tas2562_is_speaker device then (0, amp, [])
  else
    match amp.pcm with
    | none => (-EINVAL, amp, [])
    | some _ =>
      let amp1 : Amp := { amp with pcm := none }
      let rDis := tas2562_mixer_set_enum_by_string env TAS2562_SMARTPA_ENABLE
          "DISABLE"
      let evs := Event.pcmClose :: rDis.2 ++
        [Event.disableSndDevice SndDevice.IN_CAPTURE_VI_FEEDBACK]
      match get_usecase_from_list amp1.adev.usecase_list
          UsecaseId.AUDIO_SPKR_CALIB_TX with
      | some usecase =>
        (0, { amp1 with adev := { amp1.adev with
            usecase_list := remove_usecase amp1.adev.usecase_list
              UsecaseId.AUDIO_SPKR_CALIB_TX } },
          evs ++ [Event.disableAudioRoute usecase.id])
      | none => (0, amp1, evs)

/-- `tas2562_set_feedback`: null context is -EINVAL with no effect;
otherwise the context is stored in the device record and the call is
dispatched to the enable or disable path. -/
def tas2562_set_feedback (env : Env) (amp : Amp) (adev : Option Adev)
    (devices : SndDevice) (enable : Bool) : Int × Amp × List Event :=
  match adev with
  | none => (-EINVAL, amp, [])
  | some a =>
    let amp1 : Amp := { amp with adev := a }
    if enable then tas2562_start_feedback env amp1 devices
    else tas2562_stop_feedback env amp1 devices

/-- Interface name expected by `tas2562_module_open`
(`AMPLIFIER_HARDWARE_INTERFACE`, from the external
`hardware/audio_amplifier.h` header). -/
def AMPLIFIER_HARDWARE_INTERFACE : String := "audio_amplifier_hw_if"

/-- `tas2562_module_open`: -ENODEV on an interface-name mismatch,
otherwise a zero-initialized device record whose profile defaults to
PROFILE_MUSIC (the adev context is installed later by
`tas2562_set_feedback`; allocation failure, -ENOMEM, is governed by
the same allocator flag as the usecase allocation). -/
def tas2562_module_open (env : Env) (name : String) : Int × Option Amp :=
  if name ≠ AMPLIFIER_HARDWARE_INTERFACE then (-ENODEV, none)
  else if ¬ env.allocOk then (-ENOMEM, none)
  else (0, some { profile := Profile.MUSIC, adev := { usecase_list := [] },
                  pcm := none })

/-- `variant_info_t` restricted to the fields `libinit_variant.cpp`
reads (the match key `hwc_value`, the match-and-override field
`device`, and the override fields `brand`, `model`,
`build_fingerprint`). -/
structure variant_info_t where
  hwc_value : String
  brand : String
  device : String
  model : String
  build_fingerprint : String
deriving DecidableEq, Repr

/-- Property-store writes made by the resolver:
`set_ro_build_prop(prop, value, product)` and
`property_override(key, value)`. -/
inductive PropAction
  | ro_build_prop (prop : String) (value : String) (product : Bool)
  | property_override (key : String) (value : String)
deriving DecidableEq, Repr

/-- Boot-time inputs of the resolver: the `ro.boot.hwc` and
`ro.boot.hwname` property values, the external
`fingerprint_to_description` helper from libinit_utils (uninterpreted
here), and the default of `set_ro_build_prop`'s third parameter (the
source omits it on the fingerprint call; the default comes from the
external `libinit_utils.h` header). -/
structure VEnv where
  hwc : String
  hwname : String
  f2d : String → String
  defaultProductFlag : Bool

/-- The match condition of `search_variant`: the entry's hwc_value is
empty or equals ro.boot.hwc, and the entry's device equals
ro.boot.hwname. -/
def variant_matches (env : VEnv) (v : variant_info_t) : Bool :=
  (v.hwc_value = "" ∨ v.hwc_value = env.hwc) ∧ v.device = env.hwname

/-- `set_variant_props`: the property writes applied for a matched
entry, in source order. -/
def set_variant_props (env : VEnv) (variant : variant_info_t) :
    List PropAction :=
  [PropAction.ro_build_prop "brand" variant.brand true,
   PropAction.ro_build_prop "device" variant.device true,
   PropAction.ro_build_prop "model" variant.model true,
   PropAction.ro_build_prop "fingerprint" variant.build_fingerprint
     env.defaultProductFlag,
   PropAction.property_override "ro.bootimage.build.fingerprint"
     variant.build_fingerprint,
   PropAction.property_override "ro.build.description"
     (env.f2d variant.build_fingerprint)]

/-- `search_variant`: scan the table in order; on the first entry
satisfying `variant_matches` apply `set_variant_props` and stop
(`break`); no match means no property writes. -/
def search_variant (env : VEnv) : List variant_info_t → List PropAction
  | [] => []
  | v :: rest =>
    if variant_matches env v then set_variant_props env v
    else search_variant env rest

/-- The Profile invariant: the stored profile is one of the three
named profiles (never PROFILE_NONE). -/
def profile_in_range (p : Profile) : Prop :=
  p = Profile.MUSIC ∨ p = Profile.RING ∨ p = Profile.VOICE

/-- An environment in which every external call succeeds. -/
def envOk : Env :=
  { mixerCtlExists := fun _ => true
    mixerSetEnumRet := fun _ _ => 0
    mixerSetValueRet := fun _ _ => 0
    pcmDeviceId := 0
    pcmOpenResult := some 1
    pcmReady := fun _ => true
    pcmStartRet := 0
    allocOk := true
    sndCard := 0 }

/-- An environment in which resolving the PCM device id fails. -/
def envNoDev : Env := { envOk with pcmDeviceId := -1 }

/-- An environment in which no mixer control exists but everything
else succeeds. -/
def envNoCtl : Env := { envOk with mixerCtlExists := fun _ => false }

/-- A freshly opened amplifier device with no session. -/
def ampIdle : Amp :=
  { profile := Profile.MUSIC, adev := { usecase_list := [] }, pcm := none }

/-- An amplifier device with an open feedback session. -/
def ampOpen : Amp := { ampIdle with pcm := some 1 }

/-- An adev context with an empty active-usecase list. -/
def adevEmpty : Adev := { usecase_list := [] }

/-- Replace only the mixer-related fields of an environment. -/
def Env.withMixer (env : Env) (ce : String → Bool)
    (se : String → String → Int) (sv : String → Int → Int) : Env :=
  { env with mixerCtlExists := ce, mixerSetEnumRet := se,
             mixerSetValueRet := sv }

/-- Number of occurrences of an event in a trace. -/
def countEv (e : Event) : List Event → Nat
  | [] => 0
  | x :: l => (if x = e then 1 else 0) + countEv e l

/-- Full rollback after a failed enable: negative return code, the
device state restored to the pre-call state (context installed,
session still null, usecase record gone from the list), the trace
ending with smart-PA DISABLE, route revert and routing-device
disable, and every enable call in the trace balanced by the matching
disable call. -/
def enableRollbackOk (env : Env) (amp : Amp) (a : Adev) (d : SndDevice) :
    Prop :=
  let r := tas2562_set_feedback env amp (some a) d true
  r.1 < 0 ∧
  r.2.1 = { amp with adev := a } ∧
  r.2.1.pcm = none ∧
  List.IsSuffix
    [Event.mixerSetEnum TAS2562_SMARTPA_ENABLE "DISABLE",
     Event.disableAudioRoute UsecaseId.AUDIO_SPKR_CALIB_TX,
     Event.disableSndDevice SndDevice.IN_CAPTURE_VI_FEEDBACK] r.2.2 ∧
  countEv (Event.enableSndDevice SndDevice.IN_CAPTURE_VI_FEEDBACK) r.2.2
    = countEv (Event.disableSndDevice SndDevice.IN_CAPTURE_VI_FEEDBACK) r.2.2 ∧
  countEv (Event.enableAudioRoute UsecaseId.AUDIO_SPKR_CALIB_TX) r.2.2
    = countEv (Event.disableAudioRoute UsecaseId.AUDIO_SPKR_CALIB_TX) r.2.2 ∧
  countEv (Event.mixerSetEnum TAS2562_SMARTPA_ENABLE "ENABLE") r.2.2
    = countEv (Event.mixerSetEnum TAS2562_SMARTPA_ENABLE "DISABLE") r.2.2

/-- A resolver environment with concrete boot properties. -/
def venvSample : VEnv :=
  { hwc := "CN", hwname := "miatoll", f2d := fun s => s,
    defaultProductFlag := false }

/-- A variant entry with a specific hardware code matching
`venvSample`. -/
def variantSpecific : variant_info_t :=
  { hwc_value := "CN", brand := "Redmi", device := "miatoll",
    model := "M2003J6", build_fingerprint := "fp1" }

/-- A wildcard variant entry (empty hardware code) matching the same
hardware name. -/
def variantWildcard : variant_info_t :=
  { hwc_value := "", brand := "Redmi", device := "miatoll",
    model := "M2003J6A", build_fingerprint := "fp2" }

lemma mixer_set_enum_events (env : Env) (name value : String) :
    (tas2562_mixer_set_enum_by_string env name value).2
      = [Event.mixerSetEnum name value] := by
  unfold tas2562_mixer_set_enum_by_string
  split <;> rfl

lemma mixer_set_value_events (env : Env) (name : String) (value : Int) :
    (tas2562_mixer_set_value env name value).2
      = [Event.mixerSetValue name value] := by
  unfold tas2562_mixer_set_value
  split <;> rfl

/-- C7: `setMode` on a non-null device maps NORMAL to MUSIC, RINGTONE
to RING, IN_CALL and IN_COMMUNICATION to VOICE, leaves the profile
unchanged for any other mode, and always returns success. -/
theorem tas2562_set_mode_mapping (amp : Amp) :
    tas2562_set_mode amp AudioMode.NORMAL
        = (0, { amp with profile := Profile.MUSIC })
    ∧ tas2562_set_mode amp AudioMode.RINGTONE
        = (0, { amp with profile := Profile.RING })
    ∧ tas2562_set_mode amp AudioMode.IN_CALL
        = (0, { amp with profile := Profile.VOICE })
    ∧ tas2562_set_mode amp AudioMode.IN_COMMUNICATION
        = (0, { amp with profile := Profile.VOICE })
    ∧ ∀ n, tas2562_set_mode amp (AudioMode.other n) = (0, amp) :=
  ⟨rfl, rfl, rfl, rfl, fun _ => rfl⟩

lemma start_feedback_profile (env : Env) (amp : Amp) (d : SndDevice) :
    (tas2562_start_feedback env amp d).2.1.profile = amp.profile := by
  unfold tas2562_start_feedback
  repeat' first | rfl | split

lemma stop_feedback_profile (env : Env) (amp : Amp) (d : SndDevice) :
    (tas2562_stop_feedback env amp d).2.1.profile = amp.profile := by
  unfold tas2562_stop_feedback
  repeat' first | rfl | split
  simp only []
  split <;> rfl

/-- C8: the stored profile is always MUSIC, RING or VOICE: module open
initializes it to MUSIC, and both `setMode` (for every mode) and
`setFeedback` (for every argument) preserve membership in that set. -/
theorem tas2562_profile_invariant :
    (∀ env name amp, (tas2562_module_open env name).2 = some amp →
      amp.profile = Profile.MUSIC)
    ∧ (∀ amp mode, profile_in_range amp.profile →
        profile_in_range (tas2562_set_mode amp mode).2.profile)
    ∧ (∀ env amp adev d e, profile_in_range amp.profile →
        profile_in_range
          (tas2562_set_feedback env amp adev d e).2.1.profile) := by
  refine ⟨?_, ?_, ?_⟩
  · intro env name amp h
    unfold tas2562_module_open at h
    split at h
    · exact absurd h (by simp)
    · split at h
      · exact absurd h (by simp)
      · cases h
        rfl
  · intro amp mode h
    cases mode <;> simp [tas2562_set_mode, profile_in_range]
    exact h
  · intro env amp adev d e h
    cases adev with
    | none => exact h
    | some a =>
      cases e
      · show profile_in_range
          (tas2562_stop_feedback env { amp with adev := a } d).2.1.profile
        rw [stop_feedback_profile]
        exact h
      · show profile_in_range
          (tas2562_start_feedback env { amp with adev := a } d).2.1.profile
        rw [start_feedback_profile]
        exact h

/-- C8 witness. -/
theorem tas2562_profile_invariant_witness :
    profile_in_range
      ((tas2562_set_feedback envOk ampIdle (some adevEmpty)
          SndDevice.OUT_SPEAKER true).2.1.profile) :=
  tas2562_profile_invariant.2.2 envOk ampIdle (some adevEmpty)
    SndDevice.OUT_SPEAKER true (Or.inl rfl)

/-- C4: enabling feedback while a session is already open returns
-EINVAL (InvalidState) and leaves the session, the profile and the
usecase list untouched, with no mixer or routing call made. -/
theorem tas2562_enable_busy (env : Env) (amp : Amp) (a : Adev)
    (d : SndDevice) (h : Nat) (hp : amp.pcm = some h)
    (hs : tas2562_is_speaker d = true) :
    tas2562_set_feedback env amp (some a) d true
      = (-EINVAL, { amp with adev := a }, []) := by
  simp [tas2562_set_feedback, tas2562_start_feedback, hs, hp]

/-- C4 witness. -/
theorem tas2562_enable_busy_witness :
    tas2562_set_feedback envOk ampOpen (some adevEmpty)
        SndDevice.OUT_SPEAKER true
      = (-EINVAL, { ampOpen with adev := adevEmpty }, []) :=
  tas2562_enable_busy envOk ampOpen adevEmpty SndDevice.OUT_SPEAKER 1
    rfl rfl

lemma stop_feedback_closed (env : Env) (amp : Amp) (d : SndDevice)
    (hp : amp.pcm = none) (hs : tas2562_is_speaker d = true) :
    tas2562_stop_feedback env amp d = (-EINVAL, amp, []) := by
  simp [tas2562_stop_feedback, hs, hp]

lemma stop_feedback_pcm_none (env : Env) (amp : Amp) (d : SndDevice)
    (hs : tas2562_is_speaker d = true) :
    (tas2562_stop_feedback env amp d).2.1.pcm = none := by
  unfold tas2562_stop_feedback
  cases hpcm : amp.pcm
  · simp [hs, hpcm]
  · simp [hs, hpcm]
    split <;> simp

/-- C5: disabling feedback with no open session returns -EINVAL
(InvalidState) with no state change and no mixer or routing call;
consequently, after any disable call on a speaker mask a second
disable call reports -EINVAL with no side effects. -/
theorem tas2562_disable_idle (env : Env) (amp : Amp) (a : Adev)
    (d : SndDevice) (hp : amp.pcm = none)
    (hs : tas2562_is_speaker d = true) :
    tas2562_set_feedback env amp (some a) d false
      = (-EINVAL, { amp with adev := a }, [])
    ∧ ∀ amp2 : Amp,
        tas2562_stop_feedback env (tas2562_stop_feedback env amp2 d).2.1 d
          = (-EINVAL, (tas2562_stop_feedback env amp2 d).2.1, []) := by
  constructor
  · simp only [tas2562_set_feedback]
    exact stop_feedback_closed env { amp with adev := a } d hp hs
  · intro amp2
    exact stop_feedback_closed env _ d (stop_feedback_pcm_none env amp2 d hs) hs

/-- C5 witness. -/
theorem tas2562_disable_idle_witness :
    tas2562_set_feedback envOk ampIdle (some adevEmpty)
        SndDevice.OUT_SPEAKER false
      = (-EINVAL, { ampIdle with adev := adevEmpty }, []) :=
  (tas2562_disable_idle envOk ampIdle adevEmpty SndDevice.OUT_SPEAKER
    rfl rfl).1

/-- C6: for every non-speaker routing mask and both enable values,
`setFeedback` on non-null arguments returns success, changes no
session state and makes no mixer or routing call. -/
theorem tas2562_non_speaker_noop (env : Env) (amp : Amp) (a : Adev)
    (d : SndDevice) (e : Bool) (h : tas2562_is_speaker d = false) :
    tas2562_set_feedback env amp (some a) d e
      = (0, { amp with adev := a }, []) := by
  cases e <;>
    simp [tas2562_set_feedback, tas2562_start_feedback,
      tas2562_stop_feedback, h]

/-- C6 witness. -/
theorem tas2562_non_speaker_noop_witness :
    tas2562_set_feedback envOk ampOpen (some adevEmpty) SndDevice.NONE true
      = (0, { ampOpen with adev := adevEmpty }, []) :=
  tas2562_non_speaker_noop envOk ampOpen adevEmpty SndDevice.NONE true rfl

/-- C3: on a successful enable (speaker mask, no open session,
allocation, PCM id, open, ready and start all succeed) the steps run
in the specified order — usecase registered at the head of the list,
routing device enabled and route applied, speaker-id-left set,
algorithm profile set to the current profile's name, smart-PA
enabled, stream opened with the fixed configuration and started — and
the stream handle is stored as the session; the fixed configuration
is stereo, 48kHz, S24_LE, 256-frame periods, 4 periods, min-available
40; and with a negative PCM device id the call fails with -ENODEV. -/
theorem tas2562_enable_success_sequence (env : Env) (amp : Amp) (a : Adev)
    (d : SndDevice) (h : Nat)
    (hs : tas2562_is_speaker d = true) (hp : amp.pcm = none)
    (halloc : env.allocOk = true) (hid : 0 ≤ env.pcmDeviceId)
    (hopen : env.pcmOpenResult = some h) (hready : env.pcmReady h = true)
    (hstart : 0 ≤ env.pcmStartRet) :
    tas2562_set_feedback env amp (some a) d true
      = (0,
         { profile := amp.profile,
           adev :=
             { usecase_list := tas2562_feedback_usecase :: a.usecase_list },
           pcm := some h },
         [Event.enableSndDevice SndDevice.IN_CAPTURE_VI_FEEDBACK,
          Event.enableAudioRoute UsecaseId.AUDIO_SPKR_CALIB_TX,
          Event.mixerSetValue TAS2562_SET_SPKID_LEFT 0,
          Event.mixerSetEnum TAS2562_ALGO_PROFILE
            (tas2562_profile_names amp.profile),
          Event.mixerSetEnum TAS2562_SMARTPA_ENABLE "ENABLE",
          Event.pcmOpen env.sndCard env.pcmDeviceId tas2562_pcm_config,
          Event.pcmStart])
    ∧ tas2562_pcm_config
        = { channels := 2, rate := 48000, period_size := 256,
            period_count := 4, format := PcmFormat.S24_LE,
            start_threshold := 0, stop_threshold := 2147483647,
            avail_min := 40 }
    ∧ (∀ env2 : Env, env2.allocOk = true → env2.pcmDeviceId < 0 →
        (tas2562_set_feedback env2 amp (some a) d true).1 = -ENODEV) := by
  refine ⟨?_, rfl, ?_⟩
  · have h1 : ¬ env.pcmDeviceId < 0 := not_lt.mpr hid
    have h2 : ¬ env.pcmStartRet < 0 := not_lt.mpr hstart
    simp [tas2562_set_feedback, tas2562_start_feedback, hs, hp, halloc,
      h1, hopen, hready, h2, mixer_set_enum_events, mixer_set_value_events,
      tas2562_feedback_usecase]
  · intro env2 ha2 hid2
    simp [tas2562_set_feedback, tas2562_start_feedback, hs, hp, ha2, hid2]

/-- C3 witness. -/
theorem tas2562_enable_success_sequence_witness :
    tas2562_set_feedback envOk ampIdle (some adevEmpty)
        SndDevice.OUT_SPEAKER true
      = (0,
         { profile := Profile.MUSIC,
           adev := { usecase_list := [tas2562_feedback_usecase] },
           pcm := some 1 },
         [Event.enableSndDevice SndDevice.IN_CAPTURE_VI_FEEDBACK,
          Event.enableAudioRoute UsecaseId.AUDIO_SPKR_CALIB_TX,
          Event.mixerSetValue TAS2562_SET_SPKID_LEFT 0,
          Event.mixerSetEnum TAS2562_ALGO_PROFILE "MUSIC",
          Event.mixerSetEnum TAS2562_SMARTPA_ENABLE "ENABLE",
          Event.pcmOpen 0 0 tas2562_pcm_config,
          Event.pcmStart]) :=
  (tas2562_enable_success_sequence envOk ampIdle adevEmpty
    SndDevice.OUT_SPEAKER 1 rfl rfl rfl (by decide) rfl rfl (by decide)).1

/-- C9: disabling with an open session but no matching usecase record
in the active list still succeeds: the stream is closed and the
session cleared, smart-PA is disabled and the routing device disabled,
and the absent record is tolerated (no route revert, no error). -/
theorem tas2562_disable_missing_usecase_ok (env : Env) (amp : Amp)
    (a : Adev) (d : SndDevice) (h : Nat)
    (hs : tas2562_is_speaker d = true) (hp : amp.pcm = some h)
    (hnone : get_usecase_from_list a.usecase_list
        UsecaseId.AUDIO_SPKR_CALIB_TX = none) :
    tas2562_set_feedback env amp (some a) d false
      = (0, { profile := amp.profile, adev := a, pcm := none },
         [Event.pcmClose,
          Event.mixerSetEnum TAS2562_SMARTPA_ENABLE "DISABLE",
          Event.disableSndDevice SndDevice.IN_CAPTURE_VI_FEEDBACK]) := by
  simp [tas2562_set_feedback, tas2562_stop_feedback, hs, hp, hnone,
    mixer_set_enum_events]

/-- C9 witness. -/
theorem tas2562_disable_missing_usecase_ok_witness :
    tas2562_set_feedback envOk ampOpen (some adevEmpty)
        SndDevice.OUT_SPEAKER false
      = (0, { profile := Profile.MUSIC, adev := adevEmpty, pcm := none },
         [Event.pcmClose,
          Event.mixerSetEnum TAS2562_SMARTPA_ENABLE "DISABLE",
          Event.disableSndDevice SndDevice.IN_CAPTURE_VI_FEEDBACK]) :=
  tas2562_disable_missing_usecase_ok envOk ampOpen adevEmpty
    SndDevice.OUT_SPEAKER 1 rfl rfl rfl

/-- C10: the return values of the three mixer-control steps on the
enable path are discarded: the whole outcome of the call (return code,
state and trace) is unchanged when the mixer-related behaviour of the
environment is replaced arbitrarily, and with every mixer control
missing a fully successful enable still returns 0. -/
theorem tas2562_mixer_results_ignored (env : Env) (ce : String → Bool)
    (se : String → String → Int) (sv : String → Int → Int)
    (amp : Amp) (a : Adev) (d : SndDevice) :
    tas2562_set_feedback (env.withMixer ce se sv) amp (some a) d true
      = tas2562_set_feedback env amp (some a) d true
    ∧ (tas2562_set_feedback envNoCtl ampIdle (some adevEmpty)
        SndDevice.OUT_SPEAKER true).1 = 0 := by
  constructor
  · simp [tas2562_set_feedback, tas2562_start_feedback, Env.withMixer,
      mixer_set_enum_events, mixer_set_value_events]
  · rfl

/-- C1: whenever the enable path fails past the setup steps (PCM
device id unresolvable, stream open failure, stream not ready, or
stream start failure), the call returns a negative code with the
device state fully restored and the trace showing the symmetric
rollback. -/
theorem tas2562_enable_failure_rollback (env : Env) (amp : Amp) (a : Adev)
    (d : SndDevice)
    (hs : tas2562_is_speaker d = true) (hp : amp.pcm = none)
    (halloc : env.allocOk = true)
    (hfail : env.pcmDeviceId < 0 ∨ env.pcmOpenResult = none
      ∨ (∃ h, env.pcmOpenResult = some h ∧ env.pcmReady h = false)
      ∨ (∃ h, env.pcmOpenResult = some h ∧ env.pcmReady h = true
          ∧ env.pcmStartRet < 0)) :
    enableRollbackOk env amp a d := by
  by_cases hid : env.pcmDeviceId < 0
  · have hr : tas2562_set_feedback env amp (some a) d true
        = (-ENODEV, { amp with adev := a },
           [Event.enableSndDevice SndDevice.IN_CAPTURE_VI_FEEDBACK,
            Event.enableAudioRoute UsecaseId.AUDIO_SPKR_CALIB_TX,
            Event.mixerSetValue TAS2562_SET_SPKID_LEFT 0,
            Event.mixerSetEnum TAS2562_ALGO_PROFILE
              (tas2562_profile_names amp.profile),
            Event.mixerSetEnum TAS2562_SMARTPA_ENABLE "ENABLE",
            Event.mixerSetEnum TAS2562_SMARTPA_ENABLE "DISABLE",
            Event.disableAudioRoute UsecaseId.AUDIO_SPKR_CALIB_TX,
            Event.disableSndDevice SndDevice.IN_CAPTURE_VI_FEEDBACK]) := by
      simp [tas2562_set_feedback, tas2562_start_feedback, hs, hp, halloc,
        hid, mixer_set_enum_events, mixer_set_value_events,
        tas2562_feedback_usecase]
    simp only [enableRollbackOk]
    rw [hr]
    refine ⟨by norm_num [ENODEV], rfl, by simp [hp], ?_, ?_, ?_, ?_⟩
    · exact ⟨[Event.enableSndDevice SndDevice.IN_CAPTURE_VI_FEEDBACK,
        Event.enableAudioRoute UsecaseId.AUDIO_SPKR_CALIB_TX,
        Event.mixerSetValue TAS2562_SET_SPKID_LEFT 0,
        Event.mixerSetEnum TAS2562_ALGO_PROFILE
          (tas2562_profile_names amp.profile),
        Event.mixerSetEnum TAS2562_SMARTPA_ENABLE "ENABLE"], rfl⟩
    · simp [countEv, TAS2562_ALGO_PROFILE, TAS2562_SMARTPA_ENABLE,
        TAS2562_SET_SPKID_LEFT]
    · simp [countEv]
    · simp [countEv, TAS2562_ALGO_PROFILE, TAS2562_SMARTPA_ENABLE,
        TAS2562_SET_SPKID_LEFT]
  · rcases hfail with h1 | h2 | ⟨h, hopen, hready⟩ | ⟨h, hopen, hready, hstart⟩
    · exact absurd h1 hid
    · have hr : tas2562_set_feedback env amp (some a) d true
          = (-EIOVal, { amp with adev := a },
             [Event.enableSndDevice SndDevice.IN_CAPTURE_VI_FEEDBACK,
              Event.enableAudioRoute UsecaseId.AUDIO_SPKR_CALIB_TX,
              Event.mixerSetValue TAS2562_SET_SPKID_LEFT 0,
              Event.mixerSetEnum TAS2562_ALGO_PROFILE
                (tas2562_profile_names amp.profile),
              Event.mixerSetEnum TAS2562_SMARTPA_ENABLE "ENABLE",
              Event.pcmOpen env.sndCard env.pcmDeviceId tas2562_pcm_config,
              Event.mixerSetEnum TAS2562_SMARTPA_ENABLE "DISABLE",
              Event.disableAudioRoute UsecaseId.AUDIO_SPKR_CALIB_TX,
              Event.disableSndDevice SndDevice.IN_CAPTURE_VI_FEEDBACK]) := by
        simp [tas2562_set_feedback, tas2562_start_feedback, hs, hp, halloc,
          hid, h2, mixer_set_enum_events, mixer_set_value_events,
          tas2562_feedback_usecase]
      simp only [enableRollbackOk]
      rw [hr]
      refine ⟨by norm_num [EIOVal], rfl, by simp [hp], ?_, ?_, ?_, ?_⟩
      · exact ⟨[Event.enableSndDevice SndDevice.IN_CAPTURE_VI_FEEDBACK,
          Event.enableAudioRoute UsecaseId.AUDIO_SPKR_CALIB_TX,
          Event.mixerSetValue TAS2562_SET_SPKID_LEFT 0,
          Event.mixerSetEnum TAS2562_ALGO_PROFILE
            (tas2562_profile_names amp.profile),
          Event.mixerSetEnum TAS2562_SMARTPA_ENABLE "ENABLE",
          Event.pcmOpen env.sndCard env.pcmDeviceId tas2562_pcm_config],
          rfl⟩
      · simp [countEv, TAS2562_ALGO_PROFILE, TAS2562_SMARTPA_ENABLE,
          TAS2562_SET_SPKID_LEFT]
      · simp [countEv]
      · simp [countEv, TAS2562_ALGO_PROFILE, TAS2562_SMARTPA_ENABLE,
          TAS2562_SET_SPKID_LEFT]
    · have hr : tas2562_set_feedback env amp (some a) d true
          = (-EIOVal, { amp with adev := a },
             [Event.enableSndDevice SndDevice.IN_CAPTURE_VI_FEEDBACK,
              Event.enableAudioRoute UsecaseId.AUDIO_SPKR_CALIB_TX,
              Event.mixerSetValue TAS2562_SET_SPKID_LEFT 0,
              Event.mixerSetEnum TAS2562_ALGO_PROFILE
                (tas2562_profile_names amp.profile),
              Event.mixerSetEnum TAS2562_SMARTPA_ENABLE "ENABLE",
              Event.pcmOpen env.sndCard env.pcmDeviceId tas2562_pcm_config,
              Event.mixerSetEnum TAS2562_SMARTPA_ENABLE "DISABLE",
              Event.disableAudioRoute UsecaseId.AUDIO_SPKR_CALIB_TX,
              Event.disableSndDevice SndDevice.IN_CAPTURE_VI_FEEDBACK]) := by
        simp [tas2562_set_feedback, tas2562_start_feedback, hs, hp, halloc,
          hid, hopen, hready, mixer_set_enum_events, mixer_set_value_events,
          tas2562_feedback_usecase]
      simp only [enableRollbackOk]
      rw [hr]
      refine ⟨by norm_num [EIOVal], rfl, by simp [hp], ?_, ?_, ?_, ?_⟩
      · exact ⟨[Event.enableSndDevice SndDevice.IN_CAPTURE_VI_FEEDBACK,
          Event.enableAudioRoute UsecaseId.AUDIO_SPKR_CALIB_TX,
          Event.mixerSetValue TAS2562_SET_SPKID_LEFT 0,
          Event.mixerSetEnum TAS2562_ALGO_PROFILE
            (tas2562_profile_names amp.profile),
          Event.mixerSetEnum TAS2562_SMARTPA_ENABLE "ENABLE",
          Event.pcmOpen env.sndCard env.pcmDeviceId tas2562_pcm_config],
          rfl⟩
      · simp [countEv, TAS2562_ALGO_PROFILE, TAS2562_SMARTPA_ENABLE,
          TAS2562_SET_SPKID_LEFT]
      · simp [countEv]
      · simp [countEv, TAS2562_ALGO_PROFILE, TAS2562_SMARTPA_ENABLE,
          TAS2562_SET_SPKID_LEFT]
    · have hr : tas2562_set_feedback env amp (some a) d true
          = (env.pcmStartRet, { amp with adev := a },
             [Event.enableSndDevice SndDevice.IN_CAPTURE_VI_FEEDBACK,
              Event.enableAudioRoute UsecaseId.AUDIO_SPKR_CALIB_TX,
              Event.mixerSetValue TAS2562_SET_SPKID_LEFT 0,
              Event.mixerSetEnum TAS2562_ALGO_PROFILE
                (tas2562_profile_names amp.profile),
              Event.mixerSetEnum TAS2562_SMARTPA_ENABLE "ENABLE",
              Event.pcmOpen env.sndCard env.pcmDeviceId tas2562_pcm_config,
              Event.pcmStart,
              Event.pcmClose,
              Event.mixerSetEnum TAS2562_SMARTPA_ENABLE "DISABLE",
              Event.disableAudioRoute UsecaseId.AUDIO_SPKR_CALIB_TX,
              Event.disableSndDevice SndDevice.IN_CAPTURE_VI_FEEDBACK]) := by
        simp [tas2562_set_feedback, tas2562_start_feedback, hs, hp, halloc,
          hid, hopen, hready, hstart, mixer_set_enum_events,
          mixer_set_value_events, tas2562_feedback_usecase]
      simp only [enableRollbackOk]
      rw [hr]
      refine ⟨hstart, rfl, by simp [hp], ?_, ?_, ?_, ?_⟩
      · exact ⟨[Event.enableSndDevice SndDevice.IN_CAPTURE_VI_FEEDBACK,
          Event.enableAudioRoute UsecaseId.AUDIO_SPKR_CALIB_TX,
          Event.mixerSetValue TAS2562_SET_SPKID_LEFT 0,
          Event.mixerSetEnum TAS2562_ALGO_PROFILE
            (tas2562_profile_names amp.profile),
          Event.mixerSetEnum TAS2562_SMARTPA_ENABLE "ENABLE",
          Event.pcmOpen env.sndCard env.pcmDeviceId tas2562_pcm_config,
          Event.pcmStart, Event.pcmClose], rfl⟩
      · simp [countEv, TAS2562_ALGO_PROFILE, TAS2562_SMARTPA_ENABLE,
          TAS2562_SET_SPKID_LEFT]
      · simp [countEv]
      · simp [countEv, TAS2562_ALGO_PROFILE, TAS2562_SMARTPA_ENABLE,
          TAS2562_SET_SPKID_LEFT]

/-- C1 witness. -/
theorem tas2562_enable_failure_rollback_witness :
    enableRollbackOk envNoDev ampIdle adevEmpty SndDevice.OUT_SPEAKER :=
  tas2562_enable_failure_rollback envNoDev ampIdle adevEmpty
    SndDevice.OUT_SPEAKER rfl rfl rfl (Or.inl (by decide))

/-- C2: the resolver applies the property overrides of exactly the
first table entry whose hardware code is empty or equal to
ro.boot.hwc and whose device name equals ro.boot.hwname, stopping
there; with no matching entry nothing is set; if the first of two
entries matches it alone is applied; and a matched entry's brand,
device, model and fingerprint properties are all among the writes. -/
theorem search_variant_first_match (env : VEnv)
    (variants : List variant_info_t) :
    (search_variant env variants
      = match variants.find? (fun v => variant_matches env v) with
        | some v => set_variant_props env v
        | none => [])
    ∧ (∀ s w rest, variant_matches env s = true →
        search_variant env (s :: w :: rest) = set_variant_props env s)
    ∧ (∀ v : variant_info_t,
        PropAction.ro_build_prop "brand" v.brand true
            ∈ set_variant_props env v
        ∧ PropAction.ro_build_prop "device" v.device true
            ∈ set_variant_props env v
        ∧ PropAction.ro_build_prop "model" v.model true
            ∈ set_variant_props env v
        ∧ PropAction.ro_build_prop "fingerprint" v.build_fingerprint
              env.defaultProductFlag
            ∈ set_variant_props env v) := by
  refine ⟨?_, ?_, ?_⟩
  · induction variants with
    | nil => rfl
    | cons v rest ih =>
      cases hv : variant_matches env v <;>
        simp [search_variant, List.find?, hv, ih]
  · intro s w rest hmatch
    simp [search_variant, hmatch]
  · intro v
    refine ⟨?_, ?_, ?_, ?_⟩ <;> simp [set_variant_props]

/-- C2 witness: with a specific entry first and a wildcard entry
second, both matching the boot properties, only the specific entry's
writes are applied. -/
theorem search_variant_first_match_witness :
    search_variant venvSample [variantSpecific, variantWildcard]
      = set_variant_props venvSample variantSpecific :=
  (search_variant_first_match venvSample
      [variantSpecific, variantWildcard]).2.1
    variantSpecific variantWildcard [] (by decide)
